import Mathlib

/-!
Shallow embedding of `part_detailed_view/core.py` (plugin `PartDetailedView`).

Modelling conventions:
* Python `None`-able attributes become `Option`; Python string falsiness
  (`""` is falsy) is made explicit with `pyOrStr` / `pyOrOpt` helpers that
  mirror the `x or y` idiom of the source.
* Django querysets are modelled as Lean lists.  `filter(comment__icontains=k)`
  is list filtering by case-insensitive substring; `order_by(...)` is a
  stable `List.insertionSort` on the corresponding key.  The database collation
  of a NULL `template__name` is modelled as the empty string, as the spec
  states (a `template` of `none` sorts like `""`).
* `Part.objects.get(pk=...)` with its `except (DoesNotExist, TypeError,
  ValueError)` wrapper becomes a total function returning `Option Part`.
* `request` is modelled by an optional URL resolver
  (`request.build_absolute_uri`); `request = None` is `none`.
* `getattr(x, "attr", None)` / `hasattr` probing becomes an `Option` field.
-/

namespace PartDetailedView

/-- Python `str.lower()` (ASCII model over the character list; Lean's
built-in `String.toLower` is opaque to the kernel, so the map is spelled
out on `data`). -/
def lowerStr (s : String) : String := ⟨s.data.map Char.toLower⟩

/-- Drop leading and trailing whitespace from a character list. -/
def trimChars (l : List Char) : List Char :=
  ((l.dropWhile Char.isWhitespace).reverse.dropWhile Char.isWhitespace).reverse

/-- Python `str.strip()`. -/
def trimStr (s : String) : String := ⟨trimChars s.data⟩

/-- Python `str.startswith(pre)`. -/
def startsWithStr (s pre : String) : Bool := pre.data.isPrefixOf s.data

/-- Parse a non-empty all-digit character list as a natural number. -/
def digitsToNat (cs : List Char) : Option Nat :=
  if cs ≠ [] ∧ cs.all Char.isDigit then
    some (cs.foldl (fun n c => 10 * n + (c.toNat - 48)) 0)
  else none

/-- Python `int(s)` for strings: optional sign around decimal digits,
surrounding whitespace ignored; `none` models the `ValueError`. -/
def parseIntStr (s : String) : Option Int :=
  match trimChars s.data with
  | '-' :: rest => (digitsToNat rest).map fun n => -(n : Int)
  | '+' :: rest => (digitsToNat rest).map fun n => (n : Int)
  | cs => (digitsToNat cs).map fun n => (n : Int)

/-- Python `a or b` for strings (`""` is falsy). -/
def pyOrStr (a b : String) : String := if a = "" then b else a

/-- Python `a or b` where `a` is `None` or a string and `b` is a string. -/
def pyOrOpt (a : Option String) (b : String) : String :=
  match a with
  | some s => if s = "" then b else s
  | none => b

/-- Truthiness of a Python value that is `None` or a string. -/
def optStrTruthy (a : Option String) : Bool :=
  match a with
  | some s => s ≠ ""
  | none => false

/-- Django `FileField` value reached through `attachment.attachment`:
`url` is `none` when the object does not expose a `url` attribute
(the source probes it with `hasattr(file_field, "url")`). -/
structure FileField where
  url : Option String
deriving DecidableEq

/-- An attachment row.  `link` is the direct link CharField (empty when
unset); `attachment` is the stored-file reference, `none` when absent or
falsy; `filename` is the value of `getattr(attachment, "filename", None)`,
already called when it was callable. -/
structure Attachment where
  pk : Nat
  comment : String
  link : String
  attachment : Option FileField
  filename : Option String
deriving DecidableEq

/-- A parameter template row; `units` is `none` when the object does not
expose a `units` attribute (the source probes it with `hasattr`). -/
structure Template where
  pk : Nat
  name : String
  units : Option String
deriving DecidableEq

/-- A `PartParameter` row.  `part` is the owning part's pk.
`parameter_name` models `getattr(parameter, "parameter_name", None)`. -/
structure PartParameter where
  pk : Nat
  part : Nat
  parameter_name : Option String
  template : Option Template
  units : String
  data : String
deriving DecidableEq

/-- A part row.  `full_name` models `getattr(part, "full_name", None)`;
`absolute_url` / `image_url` are `none` when the corresponding method is
missing (`hasattr` probe in the source); `attachments` is `none` when the
part has no attachment manager (`getattr(part, "attachments", None)`). -/
structure Part where
  pk : Nat
  name : String
  full_name : Option String
  description : String
  active : Bool
  absolute_url : Option String
  image_url : Option String
  attachments : Option (List Attachment)
deriving DecidableEq

/-- Plugin settings, as validated by the SETTINGS table
(`ENABLE_PART_PANEL : bool`, `DATASHEET_COMMENT_KEYWORD : str`,
`MAX_PARAMETERS : int`). -/
structure Settings where
  ENABLE_PART_PANEL : Bool
  DATASHEET_COMMENT_KEYWORD : String
  MAX_PARAMETERS : Int
deriving DecidableEq

/-- The value of `context.get("target_id")`: absent, an int, a string, or
some other object (which `Part.objects.get` rejects with `TypeError`). -/
inductive TargetId where
  | int : Int → TargetId
  | str : String → TargetId
  | malformed : TargetId
deriving DecidableEq

/-- Python truthiness of a target id (`0` and `""` are falsy; any other
object is truthy). -/
def TargetId.truthy : TargetId → Bool
  | .int n => n ≠ 0
  | .str s => s ≠ ""
  | .malformed => true

/-- The request `context` dict: the two keys the source reads. -/
structure RequestContext where
  target_model : Option String
  target_id : Option TargetId
deriving DecidableEq

/-- The backing store: all part rows and all `PartParameter` rows. -/
structure Database where
  parts : List Part
  parameters : List PartParameter
deriving DecidableEq

/-- One entry of the `datasheets` list of the panel context. -/
structure DatasheetDesc where
  id : Nat
  label : String
  url : String
  comment : String
deriving DecidableEq

/-- One entry of the `parameters` list of the panel context. -/
structure ParamDesc where
  id : Nat
  name : String
  value : String
  units : String
deriving DecidableEq

/-- The `part` summary of the panel context. -/
structure PartSummary where
  id : Nat
  name : String
  description : String
  active : Bool
  url : Option String
  thumbnail : Option String
deriving DecidableEq

/-- The `meta` block of the panel context. -/
structure Meta where
  inventree_version : String
  plugin_version : String
deriving DecidableEq

/-- The dict returned by `_build_panel_context`. -/
structure PanelContext where
  part : PartSummary
  datasheets : List DatasheetDesc
  parameters : List ParamDesc
  meta : Meta
deriving DecidableEq

/-- One panel dict of the list returned by `get_ui_panels` (the constant
title/description/icon/source fields are omitted from the model except for
the key). -/
structure Panel where
  key : String
  context : PanelContext
deriving DecidableEq

/-- Django `comment__icontains=keyword`: case-insensitive substring test. -/
def icontains (s sub : String) : Bool :=
  decide ((lowerStr sub).data <:+: (lowerStr s).data)

/-- Comparator for `.order_by("pk")` on attachments. -/
def attLE (a b : Attachment) : Prop := a.pk ≤ b.pk

instance : DecidableRel attLE := fun a b => Nat.decLe a.pk b.pk

instance : IsTotal Attachment attLE := ⟨fun a b => Nat.le_total a.pk b.pk⟩

instance : IsTrans Attachment attLE := ⟨fun _ _ _ => Nat.le_trans⟩

/-- The `template__name` sort key of a parameter: a NULL template sorts as
the empty string (this is how the spec fixes the database collation of a
NULL key). -/
def templateName (p : PartParameter) : String :=
  match p.template with
  | some t => t.name
  | none => ""

/-- Comparator for `.order_by("template__name", "pk")` on parameters. -/
def paramLE (a b : PartParameter) : Prop :=
  templateName a < templateName b ∨
    (templateName a = templateName b ∧ a.pk ≤ b.pk)

instance : DecidableRel paramLE := fun a b =>
  decidable_of_iff
    (List.Lex (fun c d => c < d) (templateName a).data (templateName b).data
      ∨ (templateName a = templateName b ∧ a.pk ≤ b.pk))
    (by unfold paramLE
        constructor
        · rintro (h | h)
          · exact Or.inl (String.lt_iff_toList_lt.mpr h)
          · exact Or.inr h
        · rintro (h | h)
          · exact Or.inl (String.lt_iff_toList_lt.mp h)
          · exact Or.inr h)

instance : IsTotal PartParameter paramLE :=
  ⟨fun a b => by
    rcases lt_trichotomy (templateName a) (templateName b) with h | h | h
    · exact Or.inl (Or.inl h)
    · rcases Nat.le_total a.pk b.pk with hp | hp
      · exact Or.inl (Or.inr ⟨h, hp⟩)
      · exact Or.inr (Or.inr ⟨h.symm, hp⟩)
    · exact Or.inr (Or.inl h)⟩

instance : IsTrans PartParameter paramLE :=
  ⟨fun a b c h1 h2 => by
    rcases h1 with h1 | ⟨e1, l1⟩ <;> rcases h2 with h2 | ⟨e2, l2⟩
    · exact Or.inl (lt_trans h1 h2)
    · exact Or.inl (lt_of_lt_of_eq h1 e2)
    · exact Or.inl (lt_of_eq_of_lt e1 h2)
    · exact Or.inr ⟨e1.trans e2, Nat.le_trans l1 l2⟩⟩

/-- `raw_url` after lines 124-128 of the source: the direct `link` when
truthy, else the stored file's `url` attribute when the file reference is
truthy and exposes one, else `None`. -/
def rawUrlOf (a : Attachment) : Option String :=
  if a.link ≠ "" then some a.link
  else
    match a.attachment with
    | some ff => ff.url
    | none => none

/-- Lines 133-134: absolute-URL normalization through
`request.build_absolute_uri` when a request is supplied and the URL is not
already absolute. -/
def normalizeUrl (req : Option (String → String)) (u : String) : String :=
  match req with
  | some f => if ¬ (startsWithStr u "http://" || startsWithStr u "https://") then f u else u
  | none => u

/-- The body of the `for attachment in qs.order_by("pk")` loop of
`_collect_datasheets`: `none` when the attachment is skipped (`continue`). -/
def resolveAttachment (req : Option (String → String)) (a : Attachment) :
    Option DatasheetDesc :=
  match rawUrlOf a with
  | none => none
  | some raw =>
    if raw = "" then none
    else
      some
        { id := a.pk
          label := pyOrOpt a.filename (pyOrStr a.comment "Datasheet")
          url := normalizeUrl req raw
          comment := a.comment }

/-- `_collect_datasheets` applied to an attachment list: filter by
`comment__icontains`, order by pk, then run the loop. -/
def collectDatasheetList (req : Option (String → String)) (kw : String)
    (atts : List Attachment) : List DatasheetDesc :=
  (List.insertionSort attLE (atts.filter fun a => icontains a.comment kw)).filterMap
    (resolveAttachment req)

/-- `_collect_datasheets`: the empty list when the part has no attachment
manager. -/
def collect_datasheets (req : Option (String → String)) (part : Part)
    (kw : String) : List DatasheetDesc :=
  match part.attachments with
  | none => []
  | some atts => collectDatasheetList req kw atts

/-- Serialization of one parameter row (lines 165-181), with the
name/units fallback chains of the source. -/
def serializeParam (p : PartParameter) : ParamDesc :=
  let name0 := p.parameter_name
  let name1 := if ¬ optStrTruthy name0 ∧ p.template.isSome then
      (p.template.map Template.name) else name0
  let name2 := pyOrOpt name1 ("Parameter " ++ toString p.pk)
  let units1 := if p.units = "" then
      (match p.template with
       | some t =>
         match t.units with
         | some u => u
         | none => p.units
       | none => p.units)
    else p.units
  { id := p.pk, name := name2, value := p.data, units := units1 }

/-- The accumulation loop of `_collect_parameters` (lines 164-184):
append the serialized row, then `if limit and len(parameters) >= limit:
break`.  `count` is `len(parameters)` before the append. -/
def collectParamLoop (limit : Int) (count : Nat) :
    List PartParameter → List ParamDesc
  | [] => []
  | p :: rest =>
    let d := serializeParam p
    if limit ≠ 0 ∧ (limit : Int) ≤ (count + 1 : Nat) then [d]
    else d :: collectParamLoop limit (count + 1) rest

/-- The ordered queryset of `_collect_parameters`:
`PartParameter.objects.filter(part=part).order_by("template__name", "pk")`. -/
def paramQS (allParams : List PartParameter) (partPk : Nat) :
    List PartParameter :=
  List.insertionSort paramLE (allParams.filter fun p => p.part == partPk)

/-- `_collect_parameters`; `limit` is `get_setting("MAX_PARAMETERS") or 0`
(`or 0` is the identity on integers, since `0 or 0 == 0`). -/
def collect_parameters (limit : Int) (allParams : List PartParameter)
    (partPk : Nat) : List ParamDesc :=
  collectParamLoop limit 0 (paramQS allParams partPk)

/-- Lines 91-92: keyword processing of `_build_panel_context`:
`keyword = (setting or "").strip(); keyword = keyword.lower() or "datasheet"`. -/
def processKeyword (k : String) : String :=
  pyOrStr (lowerStr (trimStr k)) "datasheet"

/-- `_build_panel_context`. -/
def build_panel_context (st : Settings) (db : Database)
    (req : Option (String → String)) (hostVersion pluginVersion : String)
    (part : Part) : PanelContext :=
  let kw := processKeyword st.DATASHEET_COMMENT_KEYWORD
  { part :=
      { id := part.pk
        name := pyOrOpt part.full_name part.name
        description := part.description
        active := part.active
        url := part.absolute_url
        thumbnail := part.image_url }
    datasheets := collect_datasheets req part kw
    parameters := collect_parameters st.MAX_PARAMETERS db.parameters part.pk
    meta := { inventree_version := hostVersion, plugin_version := pluginVersion } }

/-- `Part.objects.get(pk=target_id)` under the
`except (Part.DoesNotExist, TypeError, ValueError)` wrapper: `none` on a
missing row, a non-integer string (ValueError) or a non-castable object
(TypeError). -/
def lookupPart (parts : List Part) (tid : TargetId) : Option Part :=
  match tid with
  | .int n => if n < 0 then none else parts.find? fun p => p.pk == n.toNat
  | .str s =>
    match parseIntStr s with
    | some n => if n < 0 then none else parts.find? fun p => p.pk == n.toNat
    | none => none
  | .malformed => none

/-- `get_ui_panels`: the guard chain of lines 55-69 followed by the single
panel dict. -/
def get_ui_panels (st : Settings) (db : Database)
    (req : Option (String → String)) (hostVersion pluginVersion : String)
    (context : Option RequestContext) : List Panel :=
  if ¬ st.ENABLE_PART_PANEL then []
  else
    let ctx := context.getD { target_model := none, target_id := none }
    if ctx.target_model ≠ some "part" then []
    else
      match ctx.target_id with
      | none => []
      | some tid =>
        if ¬ tid.truthy then []
        else
          match lookupPart db.parts tid with
          | none => []
          | some part =>
            [{ key := "part-detailed-view-panel"
               context := build_panel_context st db req hostVersion pluginVersion part }]

/-- Modelled from the spec: the C6 name fallback exactly as the claim words
it — "else the linked Template's name when a Template is linked, else the
synthesized string" (no non-emptiness condition on the template name). -/
def c6FallbackClaim (p : PartParameter) : String :=
  match p.template with
  | some t => t.name
  | none => "Parameter " ++ toString p.pk

/-- Modelled from the spec: C6 name resolution as the claim states it. -/
def c6NameClaim (p : PartParameter) : String :=
  match p.parameter_name with
  | some s => if s ≠ "" then s else c6FallbackClaim p
  | none => c6FallbackClaim p

/-- The C6 name fallback as the code actually behaves: the Template's name
is used only when it is non-empty, otherwise the synthesized string. -/
def c6FallbackAmended (p : PartParameter) : String :=
  match p.template with
  | some t => if t.name ≠ "" then t.name else "Parameter " ++ toString p.pk
  | none => "Parameter " ++ toString p.pk

/-- C6 name resolution, amended: explicit non-empty name, else non-empty
template name, else the synthesized string. -/
def c6NameAmended (p : PartParameter) : String :=
  match p.parameter_name with
  | some s => if s ≠ "" then s else c6FallbackAmended p
  | none => c6FallbackAmended p

/-- Modelled from the spec: C6 units resolution — explicit (non-empty)
units, else the Template's default units when available, else empty. -/
def c6UnitsSpec (p : PartParameter) : String :=
  if p.units ≠ "" then p.units
  else
    match p.template with
    | some t =>
      match t.units with
      | some u => u
      | none => ""
    | none => ""

/-- Modelled from the spec: C7 label resolution — the exposed (non-empty)
filename, else the comment, else the literal "Datasheet" when both are
empty. -/
def labelSpec (a : Attachment) : String :=
  match a.filename with
  | some s => if s ≠ "" then s else (if a.comment ≠ "" then a.comment else "Datasheet")
  | none => if a.comment ≠ "" then a.comment else "Datasheet"

theorem collectParamLoop_zero (count : Nat) (qs : List PartParameter) :
    collectParamLoop 0 count qs = qs.map serializeParam := by
  induction qs generalizing count with
  | nil => rfl
  | cons p rest ih => simp [collectParamLoop, ih]

theorem collectParamLoop_pos (limit : Int) (hN : 0 < limit) (count : Nat)
    (qs : List PartParameter) (hc : (count : Int) < limit) :
    collectParamLoop limit count qs =
      (qs.map serializeParam).take (limit.toNat - count) := by
  induction qs generalizing count with
  | nil => simp [collectParamLoop]
  | cons p rest ih =>
    simp only [collectParamLoop, List.map_cons]
    by_cases hbr : limit ≠ 0 ∧ (limit : Int) ≤ (count + 1 : Nat)
    · rw [if_pos hbr]
      have hcount : limit = (count + 1 : Nat) := le_antisymm hbr.2 (by exact_mod_cast hc)
      have : limit.toNat - count = 1 := by omega
      rw [this]
      rfl
    · rw [if_neg hbr]
      have hlt : ((count + 1 : Nat) : Int) < limit := by
        rcases not_and_or.mp hbr with h | h
        · exact absurd (by omega : limit = 0) (by omega)
        · omega
      rw [ih (count + 1) hlt]
      have h1 : limit.toNat - count = (limit.toNat - (count + 1)) + 1 := by omega
      rw [h1]
      rfl

theorem collectParamLoop_neg (limit : Int) (hN : limit < 0) (count : Nat)
    (qs : List PartParameter) :
    collectParamLoop limit count qs = (qs.map serializeParam).take 1 := by
  cases qs with
  | nil => rfl
  | cons p rest =>
    simp only [collectParamLoop, List.map_cons, List.take_succ_cons, List.take_zero]
    rw [if_pos ⟨by omega, by omega⟩]

theorem collectParamLoop_prefix (limit : Int) (count : Nat)
    (qs : List PartParameter) :
    ∃ n, collectParamLoop limit count qs = (qs.map serializeParam).take n := by
  induction qs generalizing count with
  | nil => exact ⟨0, rfl⟩
  | cons p rest ih =>
    simp only [collectParamLoop, List.map_cons]
    by_cases hbr : limit ≠ 0 ∧ (limit : Int) ≤ (count + 1 : Nat)
    · exact ⟨1, by rw [if_pos hbr]; rfl⟩
    · obtain ⟨n, hn⟩ := ih (count + 1)
      exact ⟨n + 1, by rw [if_neg hbr, hn]; rfl⟩

theorem resolveAttachment_id (req : Option (String → String)) (a : Attachment)
    (d : DatasheetDesc) (h : resolveAttachment req a = some d) : d.id = a.pk := by
  unfold resolveAttachment at h
  cases hr : rawUrlOf a <;> rw [hr] at h
  · exact absurd h (by simp)
  · dsimp only at h
    split at h
    · exact absurd h (by simp)
    · cases h
      rfl

theorem mem_collectDatasheetList (req : Option (String → String)) (kw : String)
    (atts : List Attachment) (d : DatasheetDesc) :
    d ∈ collectDatasheetList req kw atts ↔
      ∃ a ∈ atts, icontains a.comment kw = true ∧ resolveAttachment req a = some d := by
  unfold collectDatasheetList
  rw [List.mem_filterMap]
  constructor
  · rintro ⟨a, ha, hres⟩
    rw [(List.perm_insertionSort _ _).mem_iff, List.mem_filter] at ha
    exact ⟨a, ha.1, ha.2, hres⟩
  · rintro ⟨a, ha, hic, hres⟩
    refine ⟨a, ?_, hres⟩
    rw [(List.perm_insertionSort _ _).mem_iff, List.mem_filter]
    exact ⟨ha, hic⟩

theorem pairwiseFilterMap {α β : Type} {R : α → α → Prop} {S : β → β → Prop}
    (f : α → Option β)
    (hf : ∀ a b x y, R a b → f a = some x → f b = some y → S x y) :
    ∀ l : List α, l.Pairwise R → (l.filterMap f).Pairwise S := by
  intro l hl
  induction hl with
  | nil => simp
  | @cons a l' ha _ ih =>
    cases hfa : f a with
    | none => simpa [List.filterMap_cons, hfa] using ih
    | some b =>
      simp only [List.filterMap_cons, hfa]
      refine List.Pairwise.cons ?_ ih
      intro y hy
      obtain ⟨c, hc, hcy⟩ := List.mem_filterMap.mp hy
      exact hf a c b y (ha c hc) hfa hcy

theorem collectDatasheetList_sorted (req : Option (String → String))
    (kw : String) (atts : List Attachment) :
    ((collectDatasheetList req kw atts).map DatasheetDesc.id).Pairwise
      (fun i j => i ≤ j) := by
  rw [List.pairwise_map]
  unfold collectDatasheetList
  have hsorted : (List.insertionSort attLE
      (atts.filter fun a => icontains a.comment kw)).Pairwise attLE :=
    List.sorted_insertionSort attLE _
  refine pairwiseFilterMap (resolveAttachment req) ?_ _ hsorted
  intro a b x y hab hax hby
  rw [resolveAttachment_id req a x hax, resolveAttachment_id req b y hby]
  exact hab

/-- C1: `get_ui_panels` returns the empty panel list whenever the enable
flag is off, the context does not target a part, the target id is absent,
or the part lookup fails (missing row or malformed identifier); it is a
total function, so no error can propagate. -/
theorem c1_get_ui_panels_absent (st : Settings) (db : Database)
    (req : Option (String → String)) (hv pv : String)
    (context : Option RequestContext)
    (h : st.ENABLE_PART_PANEL = false
      ∨ (context.getD { target_model := none, target_id := none }).target_model ≠ some "part"
      ∨ (context.getD { target_model := none, target_id := none }).target_id = none
      ∨ ∃ tid, (context.getD { target_model := none, target_id := none }).target_id = some tid
          ∧ lookupPart db.parts tid = none) :
    get_ui_panels st db req hv pv context = [] := by
  rcases h with h | h | h | ⟨tid, ht, hl⟩
  · simp [get_ui_panels, h]
  · simp [get_ui_panels, h]
  · simp [get_ui_panels, h]
  · simp [get_ui_panels, ht, hl]

/-- Witness for C1 at a concrete disabled configuration. -/
theorem c1_witness :
    get_ui_panels { ENABLE_PART_PANEL := false, DATASHEET_COMMENT_KEYWORD := "", MAX_PARAMETERS := 25 }
      { parts := [], parameters := [] } none "0.16.0" "1.0.0"
      (some { target_model := some "part", target_id := some (.int 1) }) = [] :=
  c1_get_ui_panels_absent _ _ _ _ _ _ (Or.inl rfl)

/-- C9: a present-but-falsy target id (the integer 0 or the empty string)
short-circuits `get_ui_panels` to the empty list exactly like a missing id,
for every database — even one holding a part with pk 0. -/
theorem c9_falsy_target_id (st : Settings) (db : Database)
    (req : Option (String → String)) (hv pv : String) (tm : Option String)
    (tid : TargetId) (h : tid = .int 0 ∨ tid = .str "") :
    get_ui_panels st db req hv pv (some { target_model := tm, target_id := some tid })
        = get_ui_panels st db req hv pv (some { target_model := tm, target_id := none })
      ∧ get_ui_panels st db req hv pv (some { target_model := tm, target_id := some tid })
        = [] := by
  rcases h with rfl | rfl <;>
    constructor <;>
    simp [get_ui_panels, TargetId.truthy]

/-- Witness for C9: a part with pk 0 exists, the panel is enabled and the
context targets a part with id 0, yet the result is the empty list. -/
theorem c9_witness :
    get_ui_panels { ENABLE_PART_PANEL := true, DATASHEET_COMMENT_KEYWORD := "datasheet", MAX_PARAMETERS := 25 }
      { parts := [{ pk := 0, name := "n", full_name := none, description := "", active := true,
                    absolute_url := none, image_url := none, attachments := some [] }],
        parameters := [] }
      none "0.16.0" "1.0.0"
      (some { target_model := some "part", target_id := some (.int 0) }) = [] :=
  (c9_falsy_target_id _ _ _ _ _ _ _ (Or.inl rfl)).2

theorem icontains_iff (s sub : String) :
    icontains s sub = true ↔ (lowerStr sub).data <:+: (lowerStr s).data := by
  unfold icontains
  exact decide_eq_true_iff

/-- C2: the datasheet list produced by `_build_panel_context` contains
exactly the descriptors of the part's attachments whose comment contains
the processed keyword as a case-insensitive substring and that resolve to
a URL; it is ordered by attachment id ascending; and the processed keyword
is the trimmed, lower-cased setting, or the literal "datasheet" when that
is empty. -/
theorem c2_datasheet_selection (st : Settings) (db : Database)
    (req : Option (String → String)) (hv pv : String) (part : Part) :
    (∀ d : DatasheetDesc,
        d ∈ (build_panel_context st db req hv pv part).datasheets ↔
          ∃ a ∈ part.attachments.getD [],
            ((lowerStr (processKeyword st.DATASHEET_COMMENT_KEYWORD)).data
                <:+: (lowerStr a.comment).data)
            ∧ resolveAttachment req a = some d)
    ∧ (((build_panel_context st db req hv pv part).datasheets.map
          DatasheetDesc.id).Pairwise fun i j => i ≤ j)
    ∧ processKeyword st.DATASHEET_COMMENT_KEYWORD
        = (if lowerStr (trimStr st.DATASHEET_COMMENT_KEYWORD) = "" then "datasheet"
           else lowerStr (trimStr st.DATASHEET_COMMENT_KEYWORD)) := by
  have hds : (build_panel_context st db req hv pv part).datasheets
      = collect_datasheets req part (processKeyword st.DATASHEET_COMMENT_KEYWORD) := rfl
  refine ⟨?_, ?_, rfl⟩
  · intro d
    rw [hds]
    cases hat : part.attachments with
    | none => simp [collect_datasheets, hat]
    | some atts =>
      have hcoll : collect_datasheets req part (processKeyword st.DATASHEET_COMMENT_KEYWORD)
          = collectDatasheetList req (processKeyword st.DATASHEET_COMMENT_KEYWORD) atts := by
        unfold collect_datasheets
        rw [hat]
      rw [hcoll, Option.getD_some, mem_collectDatasheetList]
      simp only [icontains_iff]
  · rw [hds]
    cases hat : part.attachments with
    | none => simp [collect_datasheets, hat]
    | some atts =>
      have hcoll : collect_datasheets req part (processKeyword st.DATASHEET_COMMENT_KEYWORD)
          = collectDatasheetList req (processKeyword st.DATASHEET_COMMENT_KEYWORD) atts := by
        unfold collect_datasheets
        rw [hat]
      rw [hcoll]
      exact collectDatasheetList_sorted req _ atts

/-- C3: a `MAX_PARAMETERS` of 0 returns every parameter of the part (the
ids are a permutation of the eligible rows); a positive limit returns
exactly the first `limit` entries of the unbounded ordered list, hence
`min limit total` entries, without reordering. -/
theorem c3_parameter_limit (allP : List PartParameter) (pk : Nat) :
    ((collect_parameters 0 allP pk).map ParamDesc.id).Perm
        ((allP.filter fun p => p.part == pk).map PartParameter.pk)
    ∧ ∀ N : Int, 0 < N →
        collect_parameters N allP pk = (collect_parameters 0 allP pk).take N.toNat
        ∧ (collect_parameters N allP pk).length
            = min N.toNat ((allP.filter fun p => p.part == pk).length) := by
  have h0 : collect_parameters 0 allP pk = (paramQS allP pk).map serializeParam :=
    collectParamLoop_zero 0 _
  constructor
  · rw [h0, List.map_map]
    have hcomp : (ParamDesc.id ∘ serializeParam) = PartParameter.pk :=
      funext fun p => rfl
    rw [hcomp]
    exact (List.perm_insertionSort _ _).map _
  · intro N hN
    have hc0 : ((0 : Nat) : Int) < N := by exact_mod_cast hN
    have hpos : collect_parameters N allP pk
        = ((paramQS allP pk).map serializeParam).take N.toNat := by
      unfold collect_parameters
      rw [collectParamLoop_pos N hN 0 _ hc0, Nat.sub_zero]
    refine ⟨by rw [hpos, h0], ?_⟩
    rw [hpos, List.length_take, List.length_map]
    congr 1
    exact (List.perm_insertionSort _ _).length_eq

/-- Witness for C3 with three parameters of the part and a limit of 2. -/
theorem c3_witness :
    (0 : Int) < 2
    ∧ collect_parameters 2
        [{ pk := 1, part := 5, parameter_name := none,
           template := some { pk := 9, name := "Voltage", units := some "V" },
           units := "", data := "3.3" },
         { pk := 2, part := 5, parameter_name := some "X", template := none,
           units := "V", data := "b" },
         { pk := 3, part := 5, parameter_name := none, template := none,
           units := "", data := "c" }] 5
      = (collect_parameters 0
          [{ pk := 1, part := 5, parameter_name := none,
             template := some { pk := 9, name := "Voltage", units := some "V" },
             units := "", data := "3.3" },
           { pk := 2, part := 5, parameter_name := some "X", template := none,
             units := "V", data := "b" },
           { pk := 3, part := 5, parameter_name := none, template := none,
             units := "", data := "c" }] 5).take (2 : Int).toNat :=
  ⟨by decide,
   ((c3_parameter_limit
      [{ pk := 1, part := 5, parameter_name := none,
         template := some { pk := 9, name := "Voltage", units := some "V" },
         units := "", data := "3.3" },
       { pk := 2, part := 5, parameter_name := some "X", template := none,
         units := "V", data := "b" },
       { pk := 3, part := 5, parameter_name := none, template := none,
         units := "", data := "c" }] 5).2 2 (by decide)).1⟩

/-- C4: each returned parameter slice is ordered primarily by the linked
template's name (a missing template sorting as the empty string) and
secondarily by parameter id, stated on the descriptors through the source
rows they serialize (`hnd` rules out two rows sharing a pk). -/
theorem c4_parameter_ordering (limit : Int) (allP : List PartParameter)
    (pk : Nat) (hnd : (allP.map PartParameter.pk).Nodup) :
    (collect_parameters limit allP pk).Pairwise fun d1 d2 =>
      ∀ p1 ∈ allP, ∀ p2 ∈ allP, p1.pk = d1.id → p2.pk = d2.id →
        (templateName p1 < templateName p2
          ∨ (templateName p1 = templateName p2 ∧ p1.pk ≤ p2.pk)) := by
  obtain ⟨n, hn⟩ := collectParamLoop_prefix limit 0 (paramQS allP pk)
  unfold collect_parameters
  rw [hn]
  refine List.Pairwise.sublist (List.take_sublist _ _) ?_
  rw [List.pairwise_map]
  have hsorted : (paramQS allP pk).Pairwise paramLE :=
    List.sorted_insertionSort paramLE _
  have hmem : ∀ q ∈ paramQS allP pk, q ∈ allP := by
    intro q hq
    unfold paramQS at hq
    rw [(List.perm_insertionSort _ _).mem_iff, List.mem_filter] at hq
    exact hq.1
  refine hsorted.imp_of_mem ?_
  intro a b ha hb hab
  intro p1 hp1 p2 hp2 he1 he2
  have ha' : a ∈ allP := hmem a ha
  have hb' : b ∈ allP := hmem b hb
  have hpa : p1 = a :=
    List.inj_on_of_nodup_map hnd hp1 ha' (he1.trans rfl)
  have hpb : p2 = b :=
    List.inj_on_of_nodup_map hnd hp2 hb' (he2.trans rfl)
  rw [hpa, hpb]
  exact hab

/-- Witness for C4 on a two-row table with distinct pks. -/
theorem c4_witness :
    ([{ pk := 1, part := 5, parameter_name := none,
        template := some { pk := 9, name := "Voltage", units := some "V" },
        units := "", data := "3.3" },
      { pk := 2, part := 5, parameter_name := some "X", template := none,
        units := "V", data := "b" }].map PartParameter.pk).Nodup
    ∧ (collect_parameters 0
        [{ pk := 1, part := 5, parameter_name := none,
           template := some { pk := 9, name := "Voltage", units := some "V" },
           units := "", data := "3.3" },
         { pk := 2, part := 5, parameter_name := some "X", template := none,
           units := "V", data := "b" }] 5).Pairwise fun d1 d2 =>
        ∀ p1 ∈ [{ pk := 1, part := 5, parameter_name := none,
                  template := some { pk := 9, name := "Voltage", units := some "V" },
                  units := "", data := "3.3" },
                { pk := 2, part := 5, parameter_name := some "X", template := none,
                  units := "V", data := "b" }],
          ∀ p2 ∈ [{ pk := 1, part := 5, parameter_name := none,
                    template := some { pk := 9, name := "Voltage", units := some "V" },
                    units := "", data := "3.3" },
                  { pk := 2, part := 5, parameter_name := some "X", template := none,
                    units := "V", data := "b" }],
            p1.pk = d1.id → p2.pk = d2.id →
              (templateName p1 < templateName p2
                ∨ (templateName p1 = templateName p2 ∧ p1.pk ≤ p2.pk)) :=
  ⟨by decide,
   c4_parameter_ordering 0
     [{ pk := 1, part := 5, parameter_name := none,
        template := some { pk := 9, name := "Voltage", units := some "V" },
        units := "", data := "3.3" },
      { pk := 2, part := 5, parameter_name := some "X", template := none,
        units := "V", data := "b" }] 5 (by decide)⟩

/-- C5: the raw URL of a matching attachment is the non-empty direct
link, else the stored file's exposed URL; an attachment with neither is
skipped (`none`), and skipping is local: the collected list has exactly
the members it would have over the resolvable attachments alone. -/
theorem c5_url_resolution (req : Option (String → String)) (a : Attachment) :
    (a.link ≠ "" → rawUrlOf a = some a.link)
    ∧ (a.link = "" → ∀ ff, a.attachment = some ff → rawUrlOf a = ff.url)
    ∧ (∀ u, rawUrlOf a = some u → u ≠ "" →
        resolveAttachment req a = some
          { id := a.pk, label := pyOrOpt a.filename (pyOrStr a.comment "Datasheet"),
            url := normalizeUrl req u, comment := a.comment })
    ∧ ((rawUrlOf a = none ∨ rawUrlOf a = some "") → resolveAttachment req a = none)
    ∧ (∀ kw atts (d : DatasheetDesc),
        d ∈ collectDatasheetList req kw atts ↔
          d ∈ collectDatasheetList req kw
              (atts.filter fun b => (resolveAttachment req b).isSome)) := by
  refine ⟨?_, ?_, ?_, ?_, ?_⟩
  · intro h
    unfold rawUrlOf
    rw [if_pos h]
  · intro h ff hff
    unfold rawUrlOf
    rw [if_neg (by simp [h]), hff]
  · intro u hu hne
    unfold resolveAttachment
    rw [hu]
    dsimp only
    rw [if_neg hne]
  · rintro (h | h)
    · unfold resolveAttachment
      rw [h]
    · unfold resolveAttachment
      rw [h]
      simp
  · intro kw atts d
    rw [mem_collectDatasheetList, mem_collectDatasheetList]
    constructor
    · rintro ⟨b, hb, hic, hres⟩
      exact ⟨b, List.mem_filter.mpr ⟨hb, by rw [hres]; rfl⟩, hic, hres⟩
    · rintro ⟨b, hb, hic, hres⟩
      exact ⟨b, (List.mem_filter.mp hb).1, hic, hres⟩

/-- Witness for C5: a file-backed attachment without a direct link
resolves through the stored file's URL. -/
theorem c5_witness :
    resolveAttachment none
      { pk := 2, comment := "datasheet", link := "",
        attachment := some { url := some "/m/f.pdf" }, filename := some "f.pdf" }
      = some { id := 2, label := "f.pdf", url := "/m/f.pdf", comment := "datasheet" } :=
  (c5_url_resolution none
    { pk := 2, comment := "datasheet", link := "",
      attachment := some { url := some "/m/f.pdf" }, filename := some "f.pdf" }).2.2.1
    "/m/f.pdf" (by decide) (by decide)

/-- C6 counterexample: a parameter with no explicit name whose linked
template is named `""` serializes as the synthesized string, while the
claim as stated demands the template's (empty) name. -/
theorem c6_counterexample :
    (serializeParam
        { pk := 7, part := 1, parameter_name := none,
          template := some { pk := 3, name := "", units := none },
          units := "", data := "x" }).name = "Parameter 7"
    ∧ c6NameClaim
        { pk := 7, part := 1, parameter_name := none,
          template := some { pk := 3, name := "", units := none },
          units := "", data := "x" } = ""
    ∧ (serializeParam
        { pk := 7, part := 1, parameter_name := none,
          template := some { pk := 3, name := "", units := none },
          units := "", data := "x" }).name ≠
      c6NameClaim
        { pk := 7, part := 1, parameter_name := none,
          template := some { pk := 3, name := "", units := none },
          units := "", data := "x" } := by
  refine ⟨by decide, by decide, by decide⟩

/-- C6 amended: the descriptor name is the explicit non-empty parameter
name, else the linked template's name when that is non-empty, else
"Parameter {pk}"; the units are the explicit non-empty units, else the
template's exposed default units, else empty. -/
theorem c6_name_units_resolution (p : PartParameter) :
    (serializeParam p).name = c6NameAmended p
    ∧ (serializeParam p).units = c6UnitsSpec p := by
  constructor
  · cases hn : p.parameter_name with
    | none =>
      cases ht : p.template with
      | none =>
        simp [serializeParam, c6NameAmended, c6FallbackAmended, pyOrOpt, optStrTruthy, hn, ht]
      | some t =>
        by_cases htn : t.name = "" <;>
          simp [serializeParam, c6NameAmended, c6FallbackAmended, pyOrOpt, optStrTruthy, hn, ht, htn]
    | some s =>
      by_cases hs : s = ""
      · cases ht : p.template with
        | none =>
          simp [serializeParam, c6NameAmended, c6FallbackAmended, pyOrOpt, optStrTruthy, hn, ht, hs]
        | some t =>
          by_cases htn : t.name = "" <;>
            simp [serializeParam, c6NameAmended, c6FallbackAmended, pyOrOpt, optStrTruthy, hn, ht, hs, htn]
      · simp [serializeParam, c6NameAmended, c6FallbackAmended, pyOrOpt, optStrTruthy, hn, hs]
  · by_cases hu : p.units = ""
    · cases ht : p.template with
      | none => simp [serializeParam, c6UnitsSpec, hu, ht]
      | some t =>
        cases htu : t.units with
        | none => simp [serializeParam, c6UnitsSpec, hu, ht, htu]
        | some u => simp [serializeParam, c6UnitsSpec, hu, ht, htu]
    · simp [serializeParam, c6UnitsSpec, hu]

/-- C7: every emitted datasheet descriptor carries the label resolved in
priority order — exposed non-empty filename, else comment, else the
literal "Datasheet". -/
theorem c7_label_resolution (req : Option (String → String)) (a : Attachment)
    (d : DatasheetDesc) (h : resolveAttachment req a = some d) :
    d.label = labelSpec a := by
  unfold resolveAttachment at h
  cases hr : rawUrlOf a <;> rw [hr] at h
  · exact absurd h (by simp)
  · dsimp only at h
    split at h
    · exact absurd h (by simp)
    · cases h
      show pyOrOpt a.filename (pyOrStr a.comment "Datasheet") = labelSpec a
      cases hf : a.filename with
      | none =>
        by_cases hc : a.comment = "" <;> simp [pyOrOpt, pyOrStr, labelSpec, hf, hc]
      | some s =>
        by_cases hs : s = "" <;> by_cases hc : a.comment = "" <;>
          simp [pyOrOpt, pyOrStr, labelSpec, hf, hs, hc]

/-- Witness for C7: an attachment without a filename falls back to its
comment as the label. -/
theorem c7_witness :
    ({ id := 4, label := "DataSheet rev2", url := "https://x/a.pdf",
       comment := "DataSheet rev2" } : DatasheetDesc).label
      = labelSpec { pk := 4, comment := "DataSheet rev2", link := "https://x/a.pdf",
                    attachment := none, filename := none } :=
  c7_label_resolution none
    { pk := 4, comment := "DataSheet rev2", link := "https://x/a.pdf",
      attachment := none, filename := none }
    { id := 4, label := "DataSheet rev2", url := "https://x/a.pdf",
      comment := "DataSheet rev2" }
    (by decide)

/-- C8: with no resolver the URL passes through unchanged; with a resolver
it is converted exactly when it does not start with "http://" or
"https://"; every emitted descriptor URL is the normalization of the
attachment's raw URL. -/
theorem c8_url_normalization (f : String → String) (u : String)
    (req : Option (String → String)) (a : Attachment) (d : DatasheetDesc) :
    normalizeUrl none u = u
    ∧ ((startsWithStr u "http://" || startsWithStr u "https://") = true →
        normalizeUrl (some f) u = u)
    ∧ ((startsWithStr u "http://" || startsWithStr u "https://") = false →
        normalizeUrl (some f) u = f u)
    ∧ (resolveAttachment req a = some d →
        ∃ raw, rawUrlOf a = some raw ∧ raw ≠ "" ∧ d.url = normalizeUrl req raw) := by
  refine ⟨rfl, ?_, ?_, ?_⟩
  · intro h
    simp [normalizeUrl, h]
  · intro h
    simp [normalizeUrl, h]
  · intro h
    unfold resolveAttachment at h
    cases hr : rawUrlOf a with
    | none => rw [hr] at h; exact absurd h (by simp)
    | some raw =>
      rw [hr] at h
      dsimp only at h
      by_cases hraw : raw = ""
      · rw [if_pos hraw] at h
        exact absurd h (by simp)
      · rw [if_neg hraw] at h
        cases h
        exact ⟨raw, rfl, hraw, rfl⟩

/-- Witness for C8: a relative URL is converted by the resolver. -/
theorem c8_witness :
    (startsWithStr "/m/f" "http://" || startsWithStr "/m/f" "https://") = false
    ∧ normalizeUrl (some fun u => "http://h" ++ u) "/m/f" = "http://h/m/f" :=
  ⟨by decide,
   (c8_url_normalization (fun u => "http://h" ++ u) "/m/f" none
     { pk := 0, comment := "", link := "", attachment := none, filename := none }
     { id := 0, label := "", url := "", comment := "" }).2.2.1 (by decide)⟩

/-- C10: a negative `MAX_PARAMETERS` truncates after the very first
serialized row: the result is the head of the unbounded ordering, and has
exactly one entry whenever the part has any parameter. -/
theorem c10_negative_limit (N : Int) (hN : N < 0)
    (allP : List PartParameter) (pk : Nat) :
    collect_parameters N allP pk = (collect_parameters 0 allP pk).take 1
    ∧ ((allP.filter fun p => p.part == pk) ≠ [] →
        (collect_parameters N allP pk).length = 1) := by
  have h0 : collect_parameters 0 allP pk = (paramQS allP pk).map serializeParam :=
    collectParamLoop_zero 0 _
  have hneg : collect_parameters N allP pk
      = ((paramQS allP pk).map serializeParam).take 1 :=
    collectParamLoop_neg N hN 0 _
  constructor
  · rw [hneg, h0]
  · intro hne
    rw [hneg, List.length_take, List.length_map]
    have hlen : (paramQS allP pk).length
        = (allP.filter fun p => p.part == pk).length :=
      (List.perm_insertionSort _ _).length_eq
    have hpos : 0 < (allP.filter fun p => p.part == pk).length :=
      List.length_pos.mpr hne
    omega

/-- Witness for C10 at limit -4 over a two-parameter part. -/
theorem c10_witness :
    collect_parameters (-4)
      [{ pk := 1, part := 5, parameter_name := none,
         template := some { pk := 9, name := "Voltage", units := some "V" },
         units := "", data := "3.3" },
       { pk := 2, part := 5, parameter_name := some "X", template := none,
         units := "V", data := "b" }] 5
      = (collect_parameters 0
          [{ pk := 1, part := 5, parameter_name := none,
             template := some { pk := 9, name := "Voltage", units := some "V" },
             units := "", data := "3.3" },
           { pk := 2, part := 5, parameter_name := some "X", template := none,
             units := "V", data := "b" }] 5).take 1
    ∧ (collect_parameters (-4)
        [{ pk := 1, part := 5, parameter_name := none,
           template := some { pk := 9, name := "Voltage", units := some "V" },
           units := "", data := "3.3" },
         { pk := 2, part := 5, parameter_name := some "X", template := none,
           units := "V", data := "b" }] 5).length = 1 :=
  ⟨(c10_negative_limit (-4) (by decide)
      [{ pk := 1, part := 5, parameter_name := none,
         template := some { pk := 9, name := "Voltage", units := some "V" },
         units := "", data := "3.3" },
       { pk := 2, part := 5, parameter_name := some "X", template := none,
         units := "V", data := "b" }] 5).1,
   (c10_negative_limit (-4) (by decide)
      [{ pk := 1, part := 5, parameter_name := none,
         template := some { pk := 9, name := "Voltage", units := some "V" },
         units := "", data := "3.3" },
       { pk := 2, part := 5, parameter_name := some "X", template := none,
         units := "V", data := "b" }] 5).2 (by decide)⟩

end PartDetailedView
